import Mathlib

/-!
Verification of the kos-sdk bipedal gait controller: a shallow embedding of
the inverse-kinematics solver (`control_foot_position`), the gait state
machines of `experiments/walk.py` (`BipedController`) and `zmp_walking.py`
(`ZMPWalkingPlanner`), the IMU balance corrector of
`experiments/imu_walking.py` (`IMUBalancedWalker`), and the joint-command
conversion (`angles_to_pykos_commands`, `get_command_positions`).
Python floats are modelled as real numbers; Python ints as integers;
code that can raise (`math.asin` on an out-of-range argument) returns
`Option`.
-/

noncomputable section

/-- `math.radians`: degrees to radians, `d * pi / 180`. -/
def radiansOf (d : ℝ) : ℝ := d * Real.pi / 180

/-- `math.degrees`: radians to degrees, `r * 180 / pi`. -/
def degreesOf (r : ℝ) : ℝ := r * 180 / Real.pi

/-- `math.atan2 y x` with the usual quadrant conventions and
`atan2 0 0 = 0`. -/
def atan2 (y x : ℝ) : ℝ :=
  if 0 < x then Real.arctan (y / x)
  else if x < 0 then
    (if 0 ≤ y then Real.arctan (y / x) + Real.pi else Real.arctan (y / x) - Real.pi)
  else if 0 < y then Real.pi / 2
  else if y < 0 then -(Real.pi / 2)
  else 0

/-- Python `int()` applied to a float: truncation toward zero. -/
def truncR (x : ℝ) : ℤ := if 0 ≤ x then ⌊x⌋ else ⌈x⌉

/-- `np.clip v lo hi`. -/
def clipR (v lo hi : ℝ) : ℝ := min hi (max v lo)

/-- The guarded single-support denominator of `update_gait` /
`ZMPWalkingPlanner.update` (gait phase 30): `(1 - dsf) * step_cycle_length`,
replaced by `1.0` when it is below `1e-8`. -/
def swingDenom (dsf : ℝ) (len : ℤ) : ℝ :=
  if (1 - dsf) * (len : ℝ) < 1e-8 then 1 else (1 - dsf) * (len : ℝ)

/-! ## Inverse kinematics (`control_foot_position`)

Both `BipedController.control_foot_position` (walk.py) and
`ZMPWalkingPlanner.control_foot_position` (zmp_walking.py) compute the same
`k`, `alpha`, `gamma` and hip roll; they differ only in the knee linear
coefficients and the constant ankle offset. -/

/-- `k = min(sqrt(x*x + (y*y + h*h)), LEG_LENGTH)`. -/
def ikK (L x y h : ℝ) : ℝ := min (Real.sqrt (x * x + (y * y + h * h))) L

/-- `alpha = 0` when `abs k < 1e-8`, else `asin (x / k)`. -/
def ikAlpha (L x y h : ℝ) : ℝ :=
  if |ikK L x y h| < 1e-8 then 0 else Real.arcsin (x / ikK L x y h)

/-- `gamma = acos (max (min (k / LEG_LENGTH) 1) (-1))`. -/
def ikGamma (L x y h : ℝ) : ℝ :=
  Real.arccos (max (min (ikK L x y h / L) 1) (-1))

/-- `hip_roll = atan2 y h if abs h >= 1e-8 else 0.0`. -/
def ikHipRoll (y h : ℝ) : ℝ := if 1e-8 ≤ |h| then atan2 y h else 0

/-- The four joint angles of `control_foot_position`, parameterized by the
leg length, the knee linear function `kneeA * gamma + kneeB`, the constant
ankle offset and the configured roll offset.  Components in order:
hip pitch `K0`, hip roll `K1`, knee `H`, ankle pitch `A0`. -/
def ikSolve (L kneeA kneeB ankleOff rollOff x y h : ℝ) : ℝ × ℝ × ℝ × ℝ :=
  (ikGamma L x y h + ikAlpha L x y h,
   ikHipRoll y h + rollOff,
   kneeA * ikGamma L x y h + kneeB,
   ikGamma L x y h - ikAlpha L x y h + ankleOff)

/-- walk.py variant: `H = 1.2 * gamma + 0.2`, `A0 = gamma - alpha + (-0.1)`,
`LEG_LENGTH = 180`, `roll_offset = radians(0) = 0`. -/
def walkIK (x y h : ℝ) : ℝ × ℝ × ℝ × ℝ := ikSolve 180 1.2 0.2 (-0.1) 0 x y h

/-- zmp_walking.py variant: `H = 2.0 * gamma + 0.3`,
`A0 = gamma - alpha + 0.3`. -/
def zmpIK (x y h : ℝ) : ℝ × ℝ × ℝ × ℝ := ikSolve 180 2 0.3 0.3 0 x y h

/-- `control_foot_position` with Python exception semantics: `math.asin`
raises `ValueError` when its argument lies outside `[-1, 1]`; the `acos`
argument is clamped before the call and `sqrt` is applied to a sum of
squares, so `asin` is the only possible domain error. -/
def ikChecked (L kneeA kneeB ankleOff rollOff x y h : ℝ) : Option (ℝ × ℝ × ℝ × ℝ) :=
  if |ikK L x y h| < 1e-8 then some (ikSolve L kneeA kneeB ankleOff rollOff x y h)
  else if |x / ikK L x y h| ≤ 1 then some (ikSolve L kneeA kneeB ankleOff rollOff x y h)
  else none

/-- Modelled from the spec: the spec's hip-roll formula
"Hip roll = `atan2(y, h)` plus a configured roll bias", with no guard on
small `h` (the source guards `abs h >= 1e-8`). -/
def specHipRoll (rollOff y h : ℝ) : ℝ := atan2 y h + rollOff

/-! ### C1 -/

lemma ikK_nonneg (L x y h : ℝ) (hL : 0 ≤ L) : 0 ≤ ikK L x y h :=
  le_min (Real.sqrt_nonneg _) hL

lemma abs_le_ikK (L x y h : ℝ) (hx : |x| ≤ L) : |x| ≤ ikK L x y h := by
  refine le_min ?_ hx
  calc |x| = Real.sqrt (x ^ 2) := (Real.sqrt_sq_eq_abs x).symm
    _ ≤ Real.sqrt (x * x + (y * y + h * h)) := by
        apply Real.sqrt_le_sqrt; nlinarith [sq_nonneg y, sq_nonneg h]

/-- Claim C1, counterexample: at the request `(x, y, h) = (200, 0, 0)` the
reach clamp sets `k = 180 < |x|`, so the argument `x / k = 10/9` passed to
`asin` lies outside `[-1, 1]` and `control_foot_position` raises a domain
error; the solver is not exception-free for all real inputs. -/
theorem c1_ik_domain_error_at_200 :
    ikChecked 180 1.2 0.2 (-0.1) 0 200 0 0 = none := by
  have hs : Real.sqrt (200 * 200 + (0 * 0 + 0 * 0)) = 200 := by
    rw [show (200 * 200 + (0 * 0 + 0 * 0) : ℝ) = 200 ^ 2 by norm_num]
    exact Real.sqrt_sq (by norm_num)
  have hk : ikK 180 200 0 0 = 180 := by
    unfold ikK; rw [hs]; exact min_eq_right (by norm_num)
  unfold ikChecked
  rw [hk]
  rw [if_neg (by norm_num), if_neg ?_]
  rw [abs_of_nonneg (by norm_num : (0 : ℝ) ≤ 200 / 180)]
  norm_num

/-- Claim C1, amended: `control_foot_position` never raises provided the
requested forward offset satisfies `|x| ≤ LEG_LENGTH` (in particular for
every request whose total reach `sqrt (x² + y² + h²)` is within
`LEG_LENGTH`); the reach clamp alone does not protect the `asin` argument
when `|x| > LEG_LENGTH`. -/
theorem c1_ik_total_of_abs_le (L kneeA kneeB ankleOff rollOff x y h : ℝ)
    (hx : |x| ≤ L) :
    (ikChecked L kneeA kneeB ankleOff rollOff x y h).isSome = true := by
  unfold ikChecked
  by_cases hk : |ikK L x y h| < 1e-8
  · simp [hk]
  · have hL : 0 ≤ L := le_trans (abs_nonneg x) hx
    have hk0 : 0 ≤ ikK L x y h := ikK_nonneg L x y h hL
    have hkpos : 0 < ikK L x y h := by
      rcases lt_or_eq_of_le hk0 with hlt | heq
      · exact hlt
      · exact absurd (by rw [← heq]; norm_num) hk
    have hdiv : |x / ikK L x y h| ≤ 1 := by
      rw [abs_div, abs_of_nonneg hk0, div_le_one hkpos]
      exact abs_le_ikK L x y h hx
    simp [hk, hdiv]

/-- Witness for C1 (amended) at the in-range request `(0, 0, 170)`. -/
theorem c1_witness :
    |(0 : ℝ)| ≤ 180 ∧ (ikChecked 180 1.2 0.2 (-0.1) 0 0 0 170).isSome = true :=
  ⟨by norm_num, c1_ik_total_of_abs_le 180 1.2 0.2 (-0.1) 0 0 0 170 (by norm_num)⟩

/-! ### C2 -/

/-- Claim C2, counterexample: at `(x, y, h) = (0, 5, 0)` the code sets the
hip roll to `0` (the `abs h >= 1e-8` guard fires), while the claimed
formula `atan2(y, h) + roll bias` gives `pi / 2`. -/
theorem c2_hip_roll_counterexample :
    (walkIK 0 5 0).2.1 ≠ specHipRoll 0 5 0 := by
  have hcode : (walkIK 0 5 0).2.1 = 0 := by
    unfold walkIK ikSolve ikHipRoll
    norm_num
  have hspec : specHipRoll 0 5 0 = Real.pi / 2 := by
    unfold specHipRoll atan2
    norm_num
  rw [hcode, hspec]
  have := Real.pi_pos
  intro hcontra
  linarith [hcontra ▸ (by linarith : (0 : ℝ) < Real.pi / 2)]

/-- Claim C2, amended: the solver computes hip pitch `gamma + alpha`, ankle
pitch `gamma - alpha` plus the fixed offset, a knee angle that is a linear
function of `gamma` with positive bias and hence never `0` (both the
walk.py and the zmp_walking.py coefficients), and a hip roll equal to
`atan2(y, h)` plus the roll bias whenever `|h| ≥ 1e-8` — but equal to the
bare roll bias (the `atan2` term replaced by `0`) when `|h| < 1e-8`. -/
theorem c2_ik_formulas (x y h : ℝ) :
    (walkIK x y h).1 = ikGamma 180 x y h + ikAlpha 180 x y h ∧
    (walkIK x y h).2.2.2 = ikGamma 180 x y h - ikAlpha 180 x y h + (-0.1) ∧
    (zmpIK x y h).2.2.2 = ikGamma 180 x y h - ikAlpha 180 x y h + 0.3 ∧
    0 < (walkIK x y h).2.2.1 ∧
    0 < (zmpIK x y h).2.2.1 ∧
    (1e-8 ≤ |h| → (walkIK x y h).2.1 = specHipRoll 0 y h) ∧
    (|h| < 1e-8 → (walkIK x y h).2.1 = 0) := by
  have hg : 0 ≤ ikGamma 180 x y h := Real.arccos_nonneg _
  refine ⟨rfl, rfl, rfl, ?_, ?_, ?_, ?_⟩
  · show (0 : ℝ) < 1.2 * ikGamma 180 x y h + 0.2
    nlinarith
  · show (0 : ℝ) < 2 * ikGamma 180 x y h + 0.3
    nlinarith
  · intro hh
    show ikHipRoll y h + 0 = specHipRoll 0 y h
    unfold ikHipRoll specHipRoll
    rw [if_pos hh]
  · intro hh
    show ikHipRoll y h + 0 = 0
    unfold ikHipRoll
    rw [if_neg (not_le.mpr hh)]
    norm_num

/-- Witness for C2 (amended) at `(0, 5, 170)`, where `|h| ≥ 1e-8` and the
hip roll agrees with the spec formula. -/
theorem c2_witness :
    1e-8 ≤ |(170 : ℝ)| ∧ (walkIK 0 5 170).2.1 = specHipRoll 0 5 170 :=
  ⟨by norm_num, (c2_ik_formulas 0 5 170).2.2.2.2.2.1 (by norm_num)⟩

/-! ### C9 -/

/-- Claim C9: for every configuration with `0 ≤ dsf < 1` (indeed for all
inputs) the guarded single-support denominator is at least `1e-8`, hence
positive — the swing-foot trajectory fraction never divides by a
near-zero quantity — and it equals `(1 - dsf) * step_cycle_length`
whenever that product is not below the `1e-8` threshold. -/
theorem c9_swing_denom_guard (dsf : ℝ) (len : ℤ) (h0 : 0 ≤ dsf) (h1 : dsf < 1) :
    1e-8 ≤ swingDenom dsf len ∧ 0 < swingDenom dsf len ∧
    (1e-8 ≤ (1 - dsf) * (len : ℝ) → swingDenom dsf len = (1 - dsf) * (len : ℝ)) := by
  unfold swingDenom
  split_ifs with hcase
  · refine ⟨by norm_num, by norm_num, ?_⟩
    intro hge
    linarith
  · exact ⟨not_lt.mp hcase, lt_of_lt_of_le (by norm_num) (not_lt.mp hcase),
      fun _ => rfl⟩

/-- Witness for C9 at the walk.py configuration `dsf = 0.4`, `len = 20`. -/
theorem c9_witness :
    (0 : ℝ) ≤ 0.4 ∧ (0.4 : ℝ) < 1 ∧ 1e-8 ≤ swingDenom 0.4 20 :=
  ⟨by norm_num, by norm_num,
    (c9_swing_denom_guard 0.4 20 (by norm_num) (by norm_num)).1⟩

/-! ## Balance corrector (`IMUBalancedWalker`, experiments/imu_walking.py)

The mutable balance state; the gains, thresholds and maxima are fixed in
`__init__` and never mutated, so they are modelled as constants. -/

structure BalState where
  current_pitch : ℝ
  current_roll : ℝ
  pitch_velocity : ℝ
  roll_velocity : ℝ
  pitch_velocity_history : List ℝ
  roll_velocity_history : List ℝ

def PITCH_CORRECTION_GAIN : ℝ := 2
def ROLL_CORRECTION_GAIN : ℝ := 1
def PITCH_VELOCITY_GAIN : ℝ := 0.8
def ROLL_VELOCITY_GAIN : ℝ := 0.3
def MAX_PITCH_CORRECTION : ℝ := radiansOf 25
def MAX_ROLL_CORRECTION : ℝ := radiansOf 20
def PITCH_CORRECTION_START : ℝ := radiansOf 5
def ROLL_CORRECTION_START : ℝ := radiansOf 3

/-- `sum (np.diff l)`: the sum of consecutive differences. -/
def sumDiff (l : List ℝ) : ℝ := (List.zipWith (fun a b => b - a) l l.tail).sum

/-- `update_velocity_history`: shift each history (`history[1:] + [v]`) and
return the "acceleration" trend of each, `sum (np.diff history)`. -/
def updateVelocityHistory (s : BalState) : BalState × ℝ × ℝ :=
  let ph := s.pitch_velocity_history.tail ++ [s.pitch_velocity]
  let rh := s.roll_velocity_history.tail ++ [s.roll_velocity]
  ({ s with pitch_velocity_history := ph, roll_velocity_history := rh },
   sumDiff ph, sumDiff rh)

/-- `compute_balance_corrections`: note that it calls
`update_velocity_history` (mutating both histories) before combining the
proportional, velocity and trend terms, scaling, and clamping. Returns the
updated state together with `(pitch_correction, roll_correction)`. -/
def computeBalanceCorrections (s : BalState) : BalState × ℝ × ℝ :=
  let u := updateVelocityHistory s
  let predictivePitch := s.pitch_velocity * PITCH_VELOCITY_GAIN + u.2.1 * 0.3
  let predictiveRoll := s.roll_velocity * ROLL_VELOCITY_GAIN + u.2.2 * 0.2
  let pc0 := PITCH_CORRECTION_GAIN * s.current_pitch + predictivePitch
  let rc0 := ROLL_CORRECTION_GAIN * s.current_roll + predictiveRoll
  let pc1 := if PITCH_CORRECTION_START < |s.current_pitch| then pc0 * 1.5 else pc0
  let rc1 := if ROLL_CORRECTION_START < |s.current_roll| then rc0 * 1.5 else rc0
  let pc2 := if 0 < s.current_pitch ∨ (-0.1 < s.current_pitch ∧ 0 < s.pitch_velocity)
             then pc1 * 2 else pc1
  (u.1, clipR pc2 (-MAX_PITCH_CORRECTION) MAX_PITCH_CORRECTION,
        clipR rc1 (-MAX_ROLL_CORRECTION) MAX_ROLL_CORRECTION)

/-- A control-loop tick on which `get_orientation` fails: `update_imu_state`
catches the exception and mutates nothing, then the loop still calls
`compute_balance_corrections`; this is the resulting state. -/
def balFailedTick (s : BalState) : BalState := (computeBalanceCorrections s).1

/-- The `(pitch_correction, roll_correction)` pair returned on a tick. -/
def balOut (s : BalState) : ℝ × ℝ := (computeBalanceCorrections s).2

/-! ### C4 -/

lemma abs_clipR_le (v M : ℝ) (hM : 0 ≤ M) : |clipR v (-M) M| ≤ M := by
  rw [abs_le]
  constructor
  · exact le_min (by linarith) (le_max_right v (-M))
  · exact min_le_left _ _

/-- Claim C4: for every internal state (hence for every sequence of
orientation samples), the corrections returned by
`compute_balance_corrections` satisfy
`|pitch_correction| ≤ MAX_PITCH_CORRECTION` and
`|roll_correction| ≤ MAX_ROLL_CORRECTION`. -/
theorem c4_balance_corrections_clamped (s : BalState) :
    |(computeBalanceCorrections s).2.1| ≤ MAX_PITCH_CORRECTION ∧
    |(computeBalanceCorrections s).2.2| ≤ MAX_ROLL_CORRECTION := by
  have hp : 0 ≤ MAX_PITCH_CORRECTION := by
    unfold MAX_PITCH_CORRECTION radiansOf; positivity
  have hr : 0 ≤ MAX_ROLL_CORRECTION := by
    unfold MAX_ROLL_CORRECTION radiansOf; positivity
  exact ⟨abs_clipR_le _ _ hp, abs_clipR_le _ _ hr⟩

/-! ### C5 -/

/-- A balance state whose pitch-velocity history is not yet constant. -/
def balFrozen : BalState :=
  { current_pitch := 0, current_roll := 0, pitch_velocity := 0,
    roll_velocity := 0,
    pitch_velocity_history := [0.1, 0.2, 0, 0, 0],
    roll_velocity_history := [0, 0, 0, 0, 0] }

lemma maxPitch_ge : (0.06 : ℝ) ≤ MAX_PITCH_CORRECTION := by
  unfold MAX_PITCH_CORRECTION radiansOf
  nlinarith [Real.pi_gt_three]

lemma pitchStart_pos : (0 : ℝ) < PITCH_CORRECTION_START := by
  unfold PITCH_CORRECTION_START radiansOf; positivity

lemma rollStart_pos : (0 : ℝ) < ROLL_CORRECTION_START := by
  unfold ROLL_CORRECTION_START radiansOf; positivity

/-- Claim C5, counterexample: starting from `balFrozen` with the IMU absent
on every tick, the pitch correction of the second tick differs from that of
the first (`0` vs `-0.06`): `compute_balance_corrections` keeps appending
to the velocity history, so the output is not bit-identical across the 5
ticks, and the history is not frozen. -/
theorem c5_outputs_differ :
    (balOut (balFailedTick balFrozen)).1 ≠ (balOut balFrozen).1 := by
  have hps : ¬ (PITCH_CORRECTION_START < |(0 : ℝ)|) := by
    rw [abs_zero]; exact not_lt.mpr pitchStart_pos.le
  have hfwd : ¬ ((0 : ℝ) < 0 ∨ ((-0.1 : ℝ) < 0 ∧ (0 : ℝ) < 0)) := by norm_num
  have h1 : (balOut balFrozen).1 = clipR (-0.06) (-MAX_PITCH_CORRECTION) MAX_PITCH_CORRECTION := by
    unfold balOut computeBalanceCorrections updateVelocityHistory balFrozen
    simp only [sumDiff, List.tail_cons, List.zipWith, List.sum_cons,
      List.sum_nil, abs_zero]
    rw [if_neg (not_lt.mpr pitchStart_pos.le), if_neg hfwd]
    norm_num
  have h2 : (balOut (balFailedTick balFrozen)).1 =
      clipR 0 (-MAX_PITCH_CORRECTION) MAX_PITCH_CORRECTION := by
    have hstate : balFailedTick balFrozen =
        { current_pitch := 0, current_roll := 0, pitch_velocity := 0,
          roll_velocity := 0,
          pitch_velocity_history := [0.2, 0, 0, 0, 0],
          roll_velocity_history := [0, 0, 0, 0, 0] } := by
      unfold balFailedTick computeBalanceCorrections updateVelocityHistory balFrozen
      norm_num
    rw [hstate]
    unfold balOut computeBalanceCorrections updateVelocityHistory
    simp only [sumDiff, List.tail_cons, List.zipWith, List.sum_cons,
      List.sum_nil, abs_zero]
    rw [if_neg (not_lt.mpr pitchStart_pos.le), if_neg hfwd]
    norm_num
  have hM := maxPitch_ge
  have hc1 : clipR (-0.06) (-MAX_PITCH_CORRECTION) MAX_PITCH_CORRECTION = -0.06 := by
    unfold clipR
    rw [max_eq_left (by linarith), min_eq_right (by linarith)]
  have hc2 : clipR 0 (-MAX_PITCH_CORRECTION) MAX_PITCH_CORRECTION = 0 := by
    unfold clipR
    rw [max_eq_left (by linarith), min_eq_right (by linarith)]
  rw [h1, h2, hc1, hc2]
  norm_num

/-- Claim C5, amended: on ticks where the orientation sample cannot be
obtained, the filtered pitch, roll and both velocities are frozen at their
last values and no error is propagated (the tick is total); the velocity
histories, however, are still updated each tick (the unchanged velocity is
appended), so the returned corrections are only guaranteed bit-identical
across the failed ticks when the histories already hold the constant
current velocities (in general they stabilize once the histories
saturate). -/
theorem c5_freeze_amended (s : BalState) :
    (balFailedTick s).current_pitch = s.current_pitch ∧
    (balFailedTick s).current_roll = s.current_roll ∧
    (balFailedTick s).pitch_velocity = s.pitch_velocity ∧
    (balFailedTick s).roll_velocity = s.roll_velocity ∧
    (s.pitch_velocity_history = List.replicate 5 s.pitch_velocity →
     s.roll_velocity_history = List.replicate 5 s.roll_velocity →
     ∀ k : ℕ, balOut (balFailedTick^[k] s) = balOut s) := by
  refine ⟨rfl, rfl, rfl, rfl, ?_⟩
  intro hp hr k
  have hsat : ∀ v : ℝ, (List.replicate 5 v).tail ++ [v] = List.replicate 5 v := by
    intro v; rfl
  have hfix : balFailedTick s = s := by
    cases s with
    | mk cp cr pv rv ph rh =>
      simp only at hp hr
      subst hp hr
      show BalState.mk cp cr pv rv ((List.replicate 5 pv).tail ++ [pv])
          ((List.replicate 5 rv).tail ++ [rv]) = _
      rw [hsat pv, hsat rv]
  rw [Function.iterate_fixed hfix k]

/-- A balance state with all-zero filtered values and saturated histories. -/
def balZero : BalState :=
  { current_pitch := 0, current_roll := 0, pitch_velocity := 0,
    roll_velocity := 0,
    pitch_velocity_history := List.replicate 5 0,
    roll_velocity_history := List.replicate 5 0 }

/-- Witness for C5 (amended) at `balZero`: three consecutive failed ticks
return the same output as the first. -/
theorem c5_witness :
    balZero.pitch_velocity_history = List.replicate 5 balZero.pitch_velocity ∧
    balZero.roll_velocity_history = List.replicate 5 balZero.roll_velocity ∧
    balOut (balFailedTick^[3] balZero) = balOut balZero :=
  ⟨rfl, rfl, (c5_freeze_amended balZero).2.2.2.2 rfl rfl 3⟩

/-! ## Gait state machine (`BipedController`, experiments/walk.py)

All instance attributes of `BipedController.__init__`; Python floats are
`ℝ`, Python ints are `ℤ`, and the 0/1-valued `stance_foot_index` is a
`Bool` (`false` = 0 = left stance, `true` = 1 = right stance; `^= 1` is
negation). The joint arrays `K0, K1, H, A0` hold (left, right) pairs. -/

structure WalkState where
  LEG_LENGTH : ℝ
  hip_forward_offset : ℝ
  nominal_leg_height : ℝ
  initial_leg_height : ℝ
  gait_phase : ℤ
  walking_enabled : Bool
  stance_foot_index : Bool
  step_cycle_length : ℤ
  step_cycle_counter : ℤ
  max_foot_lift : ℝ
  double_support_fraction : ℝ
  current_foot_lift : ℝ
  fo0 : ℝ
  fo1 : ℝ
  accumulated_forward_offset : ℝ
  previous_stance_foot_offset : ℝ
  previous_swing_foot_offset : ℝ
  step_length : ℝ
  lateral_enabled : Bool
  lateral_foot_shift : ℝ
  base_stance_width : ℝ
  lateral_offset : ℝ
  K0 : ℝ × ℝ
  K1 : ℝ × ℝ
  H : ℝ × ℝ
  A0 : ℝ × ℝ
  hip_pitch_offset : ℝ
  roll_offset : ℝ

/-- Write one component of a (left, right) joint pair. -/
def setPair (p : ℝ × ℝ) (side : Bool) (v : ℝ) : ℝ × ℝ :=
  if side then (p.1, v) else (v, p.2)

/-- `forward_offset[side]`. -/
def foGet (s : WalkState) (side : Bool) : ℝ := if side then s.fo1 else s.fo0

/-- `forward_offset[side] = v`. -/
def foSet (s : WalkState) (side : Bool) (v : ℝ) : WalkState :=
  if side then { s with fo1 := v } else { s with fo0 := v }

/-- `BipedController.control_foot_position` as a state transformer: solves
the walk.py IK (knee `1.2 * gamma + 0.2`, ankle offset `-0.1`) and writes
the four angles into the joint arrays at `side`. -/
def walkControlFoot (s : WalkState) (x y h : ℝ) (side : Bool) : WalkState :=
  let r := ikSolve s.LEG_LENGTH 1.2 0.2 (-0.1) s.roll_offset x y h
  { s with K0 := setPair s.K0 side r.1, K1 := setPair s.K1 side r.2.1,
           H := setPair s.H side r.2.2.1, A0 := setPair s.A0 side r.2.2.2 }

/-- walk.py `update_gait`, lateral-offset block of the walking phases. -/
def walkLateral (s : WalkState) : WalkState :=
  if s.lateral_enabled then
    { s with lateral_offset :=
        if s.stance_foot_index = false then
          s.lateral_foot_shift *
            Real.sin (Real.pi * (s.step_cycle_counter : ℝ) / (s.step_cycle_length : ℝ))
        else
          -(s.lateral_foot_shift *
            Real.sin (Real.pi * (s.step_cycle_counter : ℝ) / (s.step_cycle_length : ℝ))) }
  else { s with lateral_offset := 0 }

/-- walk.py `update_gait`, stance-foot forward-offset block. -/
def walkForward (s : WalkState) : WalkState :=
  if (s.step_cycle_counter : ℝ) < (s.step_cycle_length : ℝ) / 2 then
    foSet s s.stance_foot_index
      (s.previous_stance_foot_offset *
        (1 - 2 * ((s.step_cycle_counter : ℝ) / (s.step_cycle_length : ℝ))))
  else
    foSet s s.stance_foot_index
      (-(s.step_length - s.accumulated_forward_offset) *
        (2 * (s.step_cycle_counter : ℝ) / (s.step_cycle_length : ℝ) - 1))

/-- walk.py `update_gait`, the `gait_phase == 20` (double support) block:
either track the swing foot or transition to phase 30. -/
def walkSwing20 (s : WalkState) : WalkState :=
  if s.gait_phase = 20 then
    if (s.step_cycle_counter : ℝ) <
        s.double_support_fraction * (s.step_cycle_length : ℝ) then
      foSet s (!s.stance_foot_index)
        (s.previous_swing_foot_offset -
          (s.previous_stance_foot_offset - foGet s s.stance_foot_index))
    else
      { s with previous_swing_foot_offset := foGet s (!s.stance_foot_index),
               gait_phase := 30 }
  else s

/-- walk.py `update_gait`, the `gait_phase == 30` (single support) block:
cosine-eased swing trajectory with the guarded denominator. -/
def walkSwing30 (s : WalkState) : WalkState :=
  if s.gait_phase = 30 then
    foSet s (!s.stance_foot_index)
      (s.previous_swing_foot_offset +
        ((-Real.cos (Real.pi *
            ((s.step_cycle_counter : ℝ) -
              (truncR (s.double_support_fraction * (s.step_cycle_length : ℝ)) : ℝ)) /
            swingDenom s.double_support_fraction s.step_cycle_length) + 1) / 2) *
          (s.step_length - s.accumulated_forward_offset -
            s.previous_swing_foot_offset))
  else s

/-- walk.py `update_gait`, foot-lift block: `i = int(dsf * len)`; lift the
swing foot on a sine profile when `counter > i`, else zero. -/
def walkLift (s : WalkState) : WalkState :=
  if truncR (s.double_support_fraction * (s.step_cycle_length : ℝ)) <
      s.step_cycle_counter then
    { s with current_foot_lift := s.max_foot_lift *
        Real.sin (Real.pi *
          ((s.step_cycle_counter : ℝ) -
            (truncR (s.double_support_fraction * (s.step_cycle_length : ℝ)) : ℝ)) /
          ((s.step_cycle_length : ℝ) -
            (truncR (s.double_support_fraction * (s.step_cycle_length : ℝ)) : ℝ))) }
  else { s with current_foot_lift := 0 }

/-- walk.py `update_gait`, foot-placement block: two
`control_foot_position` calls, subtracting the lift from the swing side. -/
def walkPlaceFeet (s : WalkState) : WalkState :=
  if s.stance_foot_index = false then
    let t := walkControlFoot s (s.fo0 - s.hip_forward_offset)
      (-s.lateral_offset - s.base_stance_width) s.nominal_leg_height false
    walkControlFoot t (t.fo1 - t.hip_forward_offset)
      (t.lateral_offset + t.base_stance_width)
      (t.nominal_leg_height - t.current_foot_lift) true
  else
    let t := walkControlFoot s (s.fo0 - s.hip_forward_offset)
      (-s.lateral_offset - s.base_stance_width)
      (s.nominal_leg_height - s.current_foot_lift) false
    walkControlFoot t (t.fo1 - t.hip_forward_offset)
      (t.lateral_offset + t.base_stance_width) t.nominal_leg_height true

/-- walk.py `update_gait`, cycle-end block: on `counter >= len` toggle the
stance foot, reset the counter to 1, zero the accumulated offset and foot
lift, snapshot the offsets, and return to phase 20; otherwise increment
the counter. -/
def walkCycleEnd (s : WalkState) : WalkState :=
  if s.step_cycle_length ≤ s.step_cycle_counter then
    { s with stance_foot_index := !s.stance_foot_index,
             step_cycle_counter := 1,
             accumulated_forward_offset := 0,
             previous_stance_foot_offset := foGet s (!s.stance_foot_index),
             previous_swing_foot_offset := foGet s (!(!s.stance_foot_index)),
             current_foot_lift := 0,
             gait_phase := 20 }
  else { s with step_cycle_counter := s.step_cycle_counter + 1 }

/-- The walking-phase body (gait phases 20/30) before the cycle-end check. -/
def walkPre (s : WalkState) : WalkState :=
  walkPlaceFeet (walkLift (walkSwing30 (walkSwing20 (walkForward (walkLateral s)))))

/-- `BipedController.update_gait` (the `visualize_robot_state` call is
pure I/O and omitted). -/
def walkUpdate (s : WalkState) : WalkState :=
  if s.gait_phase = 0 then
    let s1 := if s.nominal_leg_height + 0.1 < s.initial_leg_height then
        { s with initial_leg_height := s.initial_leg_height - 1 }
      else { s with gait_phase := 10 }
    let s2 := walkControlFoot s1 (-s1.hip_forward_offset) (-s1.base_stance_width)
      s1.initial_leg_height false
    walkControlFoot s2 (-s2.hip_forward_offset) s2.base_stance_width
      s2.initial_leg_height true
  else if s.gait_phase = 10 then
    let s1 := walkControlFoot s (-s.hip_forward_offset) (-s.base_stance_width)
      s.nominal_leg_height false
    let s2 := walkControlFoot s1 (-s1.hip_forward_offset) s1.base_stance_width
      s1.nominal_leg_height true
    if s2.walking_enabled then { s2 with gait_phase := 20 } else s2
  else if s.gait_phase = 20 ∨ s.gait_phase = 30 then
    walkCycleEnd (walkPre s)
  else s

/-- `BipedController()` with `lateral_movement_enabled=False` (the
default of walk.py's `main`: lateral shift `6 if enabled else 0`). -/
def walkInit : WalkState :=
  { LEG_LENGTH := 180, hip_forward_offset := 1, nominal_leg_height := 170,
    initial_leg_height := 175, gait_phase := 0, walking_enabled := true,
    stance_foot_index := false, step_cycle_length := 20,
    step_cycle_counter := 0, max_foot_lift := 2,
    double_support_fraction := 0.4, current_foot_lift := 0,
    fo0 := 0, fo1 := 0, accumulated_forward_offset := 0,
    previous_stance_foot_offset := 0, previous_swing_foot_offset := 0,
    step_length := 10, lateral_enabled := false, lateral_foot_shift := 0,
    base_stance_width := 2, lateral_offset := 0,
    K0 := (0, 0), K1 := (0, 0), H := (0, 0), A0 := (0, 0),
    hip_pitch_offset := radiansOf 25, roll_offset := radiansOf 0 }

/-- `walkInit` at the start of a walking cycle: phase 20, counter 1 (the
value the counter is reset to at each stance switch), the claimed
configuration `step_cycle_length = 20`, `double_support_fraction = 0.4`,
`step_length = 10` being walk.py's defaults. -/
def walkScenario : WalkState :=
  { walkInit with gait_phase := 20, step_cycle_counter := 1 }

/-! ### Projection lemmas: which fields each block leaves unchanged -/

@[simp] lemma wcf_cnt (s : WalkState) (x y h : ℝ) (b : Bool) :
    (walkControlFoot s x y h b).step_cycle_counter = s.step_cycle_counter := rfl
@[simp] lemma wcf_len (s : WalkState) (x y h : ℝ) (b : Bool) :
    (walkControlFoot s x y h b).step_cycle_length = s.step_cycle_length := rfl
@[simp] lemma wcf_stance (s : WalkState) (x y h : ℝ) (b : Bool) :
    (walkControlFoot s x y h b).stance_foot_index = s.stance_foot_index := rfl
@[simp] lemma wcf_dsf (s : WalkState) (x y h : ℝ) (b : Bool) :
    (walkControlFoot s x y h b).double_support_fraction = s.double_support_fraction := rfl
@[simp] lemma wcf_acc (s : WalkState) (x y h : ℝ) (b : Bool) :
    (walkControlFoot s x y h b).accumulated_forward_offset = s.accumulated_forward_offset := rfl
@[simp] lemma wcf_ph (s : WalkState) (x y h : ℝ) (b : Bool) :
    (walkControlFoot s x y h b).gait_phase = s.gait_phase := rfl
@[simp] lemma wcf_lift (s : WalkState) (x y h : ℝ) (b : Bool) :
    (walkControlFoot s x y h b).current_foot_lift = s.current_foot_lift := rfl
@[simp] lemma wcf_leg (s : WalkState) (x y h : ℝ) (b : Bool) :
    (walkControlFoot s x y h b).LEG_LENGTH = s.LEG_LENGTH := rfl
@[simp] lemma wcf_hfo (s : WalkState) (x y h : ℝ) (b : Bool) :
    (walkControlFoot s x y h b).hip_forward_offset = s.hip_forward_offset := rfl
@[simp] lemma wcf_nom (s : WalkState) (x y h : ℝ) (b : Bool) :
    (walkControlFoot s x y h b).nominal_leg_height = s.nominal_leg_height := rfl
@[simp] lemma wcf_init (s : WalkState) (x y h : ℝ) (b : Bool) :
    (walkControlFoot s x y h b).initial_leg_height = s.initial_leg_height := rfl

@[simp] lemma foSet_cnt (s : WalkState) (b : Bool) (v : ℝ) :
    (foSet s b v).step_cycle_counter = s.step_cycle_counter := by
  unfold foSet; split <;> rfl
@[simp] lemma foSet_len (s : WalkState) (b : Bool) (v : ℝ) :
    (foSet s b v).step_cycle_length = s.step_cycle_length := by
  unfold foSet; split <;> rfl
@[simp] lemma foSet_stance (s : WalkState) (b : Bool) (v : ℝ) :
    (foSet s b v).stance_foot_index = s.stance_foot_index := by
  unfold foSet; split <;> rfl
@[simp] lemma foSet_dsf (s : WalkState) (b : Bool) (v : ℝ) :
    (foSet s b v).double_support_fraction = s.double_support_fraction := by
  unfold foSet; split <;> rfl
@[simp] lemma foSet_acc (s : WalkState) (b : Bool) (v : ℝ) :
    (foSet s b v).accumulated_forward_offset = s.accumulated_forward_offset := by
  unfold foSet; split <;> rfl
@[simp] lemma foSet_ph (s : WalkState) (b : Bool) (v : ℝ) :
    (foSet s b v).gait_phase = s.gait_phase := by
  unfold foSet; split <;> rfl
@[simp] lemma foSet_lift (s : WalkState) (b : Bool) (v : ℝ) :
    (foSet s b v).current_foot_lift = s.current_foot_lift := by
  unfold foSet; split <;> rfl
@[simp] lemma foSet_leg (s : WalkState) (b : Bool) (v : ℝ) :
    (foSet s b v).LEG_LENGTH = s.LEG_LENGTH := by
  unfold foSet; split <;> rfl
@[simp] lemma foSet_hfo (s : WalkState) (b : Bool) (v : ℝ) :
    (foSet s b v).hip_forward_offset = s.hip_forward_offset := by
  unfold foSet; split <;> rfl
@[simp] lemma foSet_nom (s : WalkState) (b : Bool) (v : ℝ) :
    (foSet s b v).nominal_leg_height = s.nominal_leg_height := by
  unfold foSet; split <;> rfl

@[simp] lemma wlat_cnt (s : WalkState) :
    (walkLateral s).step_cycle_counter = s.step_cycle_counter := by
  unfold walkLateral; split <;> rfl
@[simp] lemma wlat_len (s : WalkState) :
    (walkLateral s).step_cycle_length = s.step_cycle_length := by
  unfold walkLateral; split <;> rfl
@[simp] lemma wlat_stance (s : WalkState) :
    (walkLateral s).stance_foot_index = s.stance_foot_index := by
  unfold walkLateral; split <;> rfl
@[simp] lemma wlat_dsf (s : WalkState) :
    (walkLateral s).double_support_fraction = s.double_support_fraction := by
  unfold walkLateral; split <;> rfl
@[simp] lemma wlat_acc (s : WalkState) :
    (walkLateral s).accumulated_forward_offset = s.accumulated_forward_offset := by
  unfold walkLateral; split <;> rfl
@[simp] lemma wlat_ph (s : WalkState) :
    (walkLateral s).gait_phase = s.gait_phase := by
  unfold walkLateral; split <;> rfl
@[simp] lemma wlat_lift (s : WalkState) :
    (walkLateral s).current_foot_lift = s.current_foot_lift := by
  unfold walkLateral; split <;> rfl
@[simp] lemma wlat_leg (s : WalkState) :
    (walkLateral s).LEG_LENGTH = s.LEG_LENGTH := by
  unfold walkLateral; split <;> rfl
@[simp] lemma wlat_hfo (s : WalkState) :
    (walkLateral s).hip_forward_offset = s.hip_forward_offset := by
  unfold walkLateral; split <;> rfl
@[simp] lemma wlat_nom (s : WalkState) :
    (walkLateral s).nominal_leg_height = s.nominal_leg_height := by
  unfold walkLateral; split <;> rfl

@[simp] lemma wfwd_cnt (s : WalkState) :
    (walkForward s).step_cycle_counter = s.step_cycle_counter := by
  unfold walkForward; split <;> simp
@[simp] lemma wfwd_len (s : WalkState) :
    (walkForward s).step_cycle_length = s.step_cycle_length := by
  unfold walkForward; split <;> simp
@[simp] lemma wfwd_stance (s : WalkState) :
    (walkForward s).stance_foot_index = s.stance_foot_index := by
  unfold walkForward; split <;> simp
@[simp] lemma wfwd_dsf (s : WalkState) :
    (walkForward s).double_support_fraction = s.double_support_fraction := by
  unfold walkForward; split <;> simp
@[simp] lemma wfwd_acc (s : WalkState) :
    (walkForward s).accumulated_forward_offset = s.accumulated_forward_offset := by
  unfold walkForward; split <;> simp
@[simp] lemma wfwd_ph (s : WalkState) :
    (walkForward s).gait_phase = s.gait_phase := by
  unfold walkForward; split <;> simp
@[simp] lemma wfwd_lift (s : WalkState) :
    (walkForward s).current_foot_lift = s.current_foot_lift := by
  unfold walkForward; split <;> simp
@[simp] lemma wfwd_leg (s : WalkState) :
    (walkForward s).LEG_LENGTH = s.LEG_LENGTH := by
  unfold walkForward; split <;> simp
@[simp] lemma wfwd_hfo (s : WalkState) :
    (walkForward s).hip_forward_offset = s.hip_forward_offset := by
  unfold walkForward; split <;> simp
@[simp] lemma wfwd_nom (s : WalkState) :
    (walkForward s).nominal_leg_height = s.nominal_leg_height := by
  unfold walkForward; split <;> simp

@[simp] lemma ws20_cnt (s : WalkState) :
    (walkSwing20 s).step_cycle_counter = s.step_cycle_counter := by
  unfold walkSwing20; split_ifs <;> simp
@[simp] lemma ws20_len (s : WalkState) :
    (walkSwing20 s).step_cycle_length = s.step_cycle_length := by
  unfold walkSwing20; split_ifs <;> simp
@[simp] lemma ws20_stance (s : WalkState) :
    (walkSwing20 s).stance_foot_index = s.stance_foot_index := by
  unfold walkSwing20; split_ifs <;> simp
@[simp] lemma ws20_dsf (s : WalkState) :
    (walkSwing20 s).double_support_fraction = s.double_support_fraction := by
  unfold walkSwing20; split_ifs <;> simp
@[simp] lemma ws20_acc (s : WalkState) :
    (walkSwing20 s).accumulated_forward_offset = s.accumulated_forward_offset := by
  unfold walkSwing20; split_ifs <;> simp
@[simp] lemma ws20_lift (s : WalkState) :
    (walkSwing20 s).current_foot_lift = s.current_foot_lift := by
  unfold walkSwing20; split_ifs <;> simp
@[simp] lemma ws20_leg (s : WalkState) :
    (walkSwing20 s).LEG_LENGTH = s.LEG_LENGTH := by
  unfold walkSwing20; split_ifs <;> simp
@[simp] lemma ws20_hfo (s : WalkState) :
    (walkSwing20 s).hip_forward_offset = s.hip_forward_offset := by
  unfold walkSwing20; split_ifs <;> simp
@[simp] lemma ws20_nom (s : WalkState) :
    (walkSwing20 s).nominal_leg_height = s.nominal_leg_height := by
  unfold walkSwing20; split_ifs <;> simp

@[simp] lemma ws30_cnt (s : WalkState) :
    (walkSwing30 s).step_cycle_counter = s.step_cycle_counter := by
  unfold walkSwing30; split_ifs <;> simp
@[simp] lemma ws30_len (s : WalkState) :
    (walkSwing30 s).step_cycle_length = s.step_cycle_length := by
  unfold walkSwing30; split_ifs <;> simp
@[simp] lemma ws30_stance (s : WalkState) :
    (walkSwing30 s).stance_foot_index = s.stance_foot_index := by
  unfold walkSwing30; split_ifs <;> simp
@[simp] lemma ws30_dsf (s : WalkState) :
    (walkSwing30 s).double_support_fraction = s.double_support_fraction := by
  unfold walkSwing30; split_ifs <;> simp
@[simp] lemma ws30_acc (s : WalkState) :
    (walkSwing30 s).accumulated_forward_offset = s.accumulated_forward_offset := by
  unfold walkSwing30; split_ifs <;> simp
@[simp] lemma ws30_lift (s : WalkState) :
    (walkSwing30 s).current_foot_lift = s.current_foot_lift := by
  unfold walkSwing30; split_ifs <;> simp
@[simp] lemma ws30_ph (s : WalkState) :
    (walkSwing30 s).gait_phase = s.gait_phase := by
  unfold walkSwing30; split_ifs <;> simp
@[simp] lemma ws30_leg (s : WalkState) :
    (walkSwing30 s).LEG_LENGTH = s.LEG_LENGTH := by
  unfold walkSwing30; split_ifs <;> simp
@[simp] lemma ws30_hfo (s : WalkState) :
    (walkSwing30 s).hip_forward_offset = s.hip_forward_offset := by
  unfold walkSwing30; split_ifs <;> simp
@[simp] lemma ws30_nom (s : WalkState) :
    (walkSwing30 s).nominal_leg_height = s.nominal_leg_height := by
  unfold walkSwing30; split_ifs <;> simp

@[simp] lemma wlift_cnt (s : WalkState) :
    (walkLift s).step_cycle_counter = s.step_cycle_counter := by
  unfold walkLift; split <;> rfl
@[simp] lemma wlift_len (s : WalkState) :
    (walkLift s).step_cycle_length = s.step_cycle_length := by
  unfold walkLift; split <;> rfl
@[simp] lemma wlift_stance (s : WalkState) :
    (walkLift s).stance_foot_index = s.stance_foot_index := by
  unfold walkLift; split <;> rfl
@[simp] lemma wlift_dsf (s : WalkState) :
    (walkLift s).double_support_fraction = s.double_support_fraction := by
  unfold walkLift; split <;> rfl
@[simp] lemma wlift_acc (s : WalkState) :
    (walkLift s).accumulated_forward_offset = s.accumulated_forward_offset := by
  unfold walkLift; split <;> rfl
@[simp] lemma wlift_ph (s : WalkState) :
    (walkLift s).gait_phase = s.gait_phase := by
  unfold walkLift; split <;> rfl
@[simp] lemma wlift_leg (s : WalkState) :
    (walkLift s).LEG_LENGTH = s.LEG_LENGTH := by
  unfold walkLift; split <;> rfl
@[simp] lemma wlift_hfo (s : WalkState) :
    (walkLift s).hip_forward_offset = s.hip_forward_offset := by
  unfold walkLift; split <;> rfl
@[simp] lemma wlift_nom (s : WalkState) :
    (walkLift s).nominal_leg_height = s.nominal_leg_height := by
  unfold walkLift; split <;> rfl

@[simp] lemma wpf_cnt (s : WalkState) :
    (walkPlaceFeet s).step_cycle_counter = s.step_cycle_counter := by
  unfold walkPlaceFeet; split <;> rfl
@[simp] lemma wpf_len (s : WalkState) :
    (walkPlaceFeet s).step_cycle_length = s.step_cycle_length := by
  unfold walkPlaceFeet; split <;> rfl
@[simp] lemma wpf_stance (s : WalkState) :
    (walkPlaceFeet s).stance_foot_index = s.stance_foot_index := by
  unfold walkPlaceFeet; split <;> rfl
@[simp] lemma wpf_dsf (s : WalkState) :
    (walkPlaceFeet s).double_support_fraction = s.double_support_fraction := by
  unfold walkPlaceFeet; split <;> rfl
@[simp] lemma wpf_acc (s : WalkState) :
    (walkPlaceFeet s).accumulated_forward_offset = s.accumulated_forward_offset := by
  unfold walkPlaceFeet; split <;> rfl
@[simp] lemma wpf_ph (s : WalkState) :
    (walkPlaceFeet s).gait_phase = s.gait_phase := by
  unfold walkPlaceFeet; split <;> rfl
@[simp] lemma wpf_lift (s : WalkState) :
    (walkPlaceFeet s).current_foot_lift = s.current_foot_lift := by
  unfold walkPlaceFeet; split <;> rfl
@[simp] lemma wpf_leg (s : WalkState) :
    (walkPlaceFeet s).LEG_LENGTH = s.LEG_LENGTH := by
  unfold walkPlaceFeet; split <;> rfl
@[simp] lemma wpf_hfo (s : WalkState) :
    (walkPlaceFeet s).hip_forward_offset = s.hip_forward_offset := by
  unfold walkPlaceFeet; split <;> rfl
@[simp] lemma wpf_nom (s : WalkState) :
    (walkPlaceFeet s).nominal_leg_height = s.nominal_leg_height := by
  unfold walkPlaceFeet; split <;> rfl

/-! ### Discrete behaviour of the walking phases -/

lemma truncR_of_nonneg {x : ℝ} (h : 0 ≤ x) : truncR x = ⌊x⌋ := if_pos h

lemma le_truncR_of_lt {c : ℤ} {x : ℝ} (hc : (c : ℝ) < x) (hx : 0 ≤ x) :
    c ≤ truncR x := by
  rw [truncR_of_nonneg hx]
  exact Int.le_floor.mpr hc.le

lemma walkLift_lift_of_le (s : WalkState)
    (h : s.step_cycle_counter ≤
      truncR (s.double_support_fraction * (s.step_cycle_length : ℝ))) :
    (walkLift s).current_foot_lift = 0 := by
  unfold walkLift
  rw [if_neg (not_lt.mpr h)]

lemma walkSwing20_ph (s : WalkState)
    (h : s.gait_phase = 20 ∨ s.gait_phase = 30) :
    (walkSwing20 s).gait_phase = 20 ∨ (walkSwing20 s).gait_phase = 30 := by
  unfold walkSwing20
  split_ifs with h1 h2
  · left; simp [h1]
  · right; rfl
  · exact h

lemma walkPre_ph (s : WalkState)
    (h : s.gait_phase = 20 ∨ s.gait_phase = 30) :
    (walkPre s).gait_phase = 20 ∨ (walkPre s).gait_phase = 30 := by
  have hY : (walkPre s).gait_phase =
      (walkSwing20 (walkForward (walkLateral s))).gait_phase := by
    simp [walkPre]
  rw [hY]
  exact walkSwing20_ph _ (by simp [h])

lemma walkPre_lift_of_le (s : WalkState)
    (h : s.step_cycle_counter ≤
      truncR (s.double_support_fraction * (s.step_cycle_length : ℝ))) :
    (walkPre s).current_foot_lift = 0 := by
  have hP : (walkPre s).current_foot_lift =
      (walkLift (walkSwing30 (walkSwing20 (walkForward (walkLateral s))))).current_foot_lift := by
    simp [walkPre]
  rw [hP]
  apply walkLift_lift_of_le
  simpa using h

lemma walkCycleEnd_not_done (t : WalkState)
    (h : t.step_cycle_counter < t.step_cycle_length) :
    walkCycleEnd t = { t with step_cycle_counter := t.step_cycle_counter + 1 } := by
  unfold walkCycleEnd
  rw [if_neg (not_le.mpr h)]

lemma walkCycleEnd_done (t : WalkState)
    (h : t.step_cycle_length ≤ t.step_cycle_counter) :
    walkCycleEnd t =
      { t with stance_foot_index := !t.stance_foot_index,
               step_cycle_counter := 1,
               accumulated_forward_offset := 0,
               previous_stance_foot_offset := foGet t (!t.stance_foot_index),
               previous_swing_foot_offset := foGet t (!(!t.stance_foot_index)),
               current_foot_lift := 0,
               gait_phase := 20 } := by
  unfold walkCycleEnd
  rw [if_pos h]

lemma walkUpdate_walking (s : WalkState)
    (hph : s.gait_phase = 20 ∨ s.gait_phase = 30) :
    walkUpdate s = walkCycleEnd (walkPre s) := by
  have h0 : ¬ s.gait_phase = 0 := by rcases hph with h | h <;> omega
  have h10 : ¬ s.gait_phase = 10 := by rcases hph with h | h <;> omega
  unfold walkUpdate
  rw [if_neg h0, if_neg h10, if_pos hph]

/-- Mid-cycle tick (`counter < len`): the counter increments and the
stance index, phase family, configuration and accumulated offset are
unchanged. -/
lemma walkUpdate_inc (s : WalkState)
    (hph : s.gait_phase = 20 ∨ s.gait_phase = 30)
    (hlt : s.step_cycle_counter < s.step_cycle_length) :
    (walkUpdate s).step_cycle_counter = s.step_cycle_counter + 1 ∧
    (walkUpdate s).stance_foot_index = s.stance_foot_index ∧
    ((walkUpdate s).gait_phase = 20 ∨ (walkUpdate s).gait_phase = 30) ∧
    (walkUpdate s).step_cycle_length = s.step_cycle_length ∧
    (walkUpdate s).double_support_fraction = s.double_support_fraction ∧
    (walkUpdate s).accumulated_forward_offset = s.accumulated_forward_offset := by
  have hlt2 : (walkPre s).step_cycle_counter < (walkPre s).step_cycle_length := by
    simpa [walkPre] using hlt
  rw [walkUpdate_walking s hph, walkCycleEnd_not_done _ hlt2]
  refine ⟨by simp [walkPre], by simp [walkPre], ?_, by simp [walkPre],
    by simp [walkPre], by simp [walkPre]⟩
  show (walkPre s).gait_phase = 20 ∨ (walkPre s).gait_phase = 30
  exact walkPre_ph s hph

/-- Cycle-end tick (`counter ≥ len`): the stance foot toggles, the counter
resets to 1 (not 0), the accumulated forward offset and foot lift are
zeroed, and the phase returns to 20. -/
lemma walkUpdate_reset (s : WalkState)
    (hph : s.gait_phase = 20 ∨ s.gait_phase = 30)
    (hge : s.step_cycle_length ≤ s.step_cycle_counter) :
    (walkUpdate s).step_cycle_counter = 1 ∧
    (walkUpdate s).stance_foot_index = !s.stance_foot_index ∧
    (walkUpdate s).gait_phase = 20 ∧
    (walkUpdate s).step_cycle_length = s.step_cycle_length ∧
    (walkUpdate s).double_support_fraction = s.double_support_fraction ∧
    (walkUpdate s).accumulated_forward_offset = 0 ∧
    (walkUpdate s).current_foot_lift = 0 := by
  have hge2 : (walkPre s).step_cycle_length ≤ (walkPre s).step_cycle_counter := by
    simpa [walkPre] using hge
  rw [walkUpdate_walking s hph, walkCycleEnd_done _ hge2]
  exact ⟨rfl, by simp [walkPre], rfl, by simp [walkPre], by simp [walkPre], rfl, rfl⟩

/-- Mid-cycle foot lift: with the counter still in the double-support
window after the increment, the stored foot lift is zero. -/
lemma walkUpdate_lift_zero (s : WalkState)
    (hph : s.gait_phase = 20 ∨ s.gait_phase = 30)
    (hlt : s.step_cycle_counter < s.step_cycle_length)
    (hc0 : 0 ≤ s.step_cycle_counter)
    (hpost : ((s.step_cycle_counter + 1 : ℤ) : ℝ) ≤
      s.double_support_fraction * (s.step_cycle_length : ℝ)) :
    (walkUpdate s).current_foot_lift = 0 := by
  have hlt2 : (walkPre s).step_cycle_counter < (walkPre s).step_cycle_length := by
    simpa [walkPre] using hlt
  rw [walkUpdate_walking s hph, walkCycleEnd_not_done _ hlt2]
  show (walkPre s).current_foot_lift = 0
  apply walkPre_lift_of_le
  have hclt : (s.step_cycle_counter : ℝ) <
      s.double_support_fraction * (s.step_cycle_length : ℝ) := by
    have : (s.step_cycle_counter : ℝ) < ((s.step_cycle_counter + 1 : ℤ) : ℝ) := by
      push_cast; linarith
    linarith
  have hnn : (0 : ℝ) ≤ s.double_support_fraction * (s.step_cycle_length : ℝ) := by
    have : (0 : ℝ) ≤ (s.step_cycle_counter : ℝ) := by exact_mod_cast hc0
    linarith
  exact le_truncR_of_lt hclt hnn

/-! ### C3 -/

/-- Claim C3: the step-cycle invariant is preserved by every tick of
`update_gait` in the walking phases (20/30): the counter stays within
`[0, step_cycle_length]`; on a cycle-end tick the stance foot toggles and
the counter is reset to 1 (not 0), while mid-cycle the stance foot is
unchanged; and the stored foot lift is 0 whenever the post-tick counter is
at most `double_support_fraction * step_cycle_length`. -/
theorem c3_step_cycle_invariant (s : WalkState)
    (hph : s.gait_phase = 20 ∨ s.gait_phase = 30)
    (hlen : 1 ≤ s.step_cycle_length)
    (hc0 : 0 ≤ s.step_cycle_counter)
    (hcle : s.step_cycle_counter ≤ s.step_cycle_length) :
    (0 ≤ (walkUpdate s).step_cycle_counter ∧
      (walkUpdate s).step_cycle_counter ≤ (walkUpdate s).step_cycle_length) ∧
    (s.step_cycle_length ≤ s.step_cycle_counter →
      (walkUpdate s).stance_foot_index = !s.stance_foot_index ∧
      (walkUpdate s).step_cycle_counter = 1) ∧
    (s.step_cycle_counter < s.step_cycle_length →
      (walkUpdate s).stance_foot_index = s.stance_foot_index) ∧
    (((walkUpdate s).step_cycle_counter : ℝ) ≤
        (walkUpdate s).double_support_fraction *
          ((walkUpdate s).step_cycle_length : ℝ) →
      (walkUpdate s).current_foot_lift = 0) := by
  rcases le_or_lt s.step_cycle_length s.step_cycle_counter with hge | hlt
  · obtain ⟨hcnt, hst, _, hlen2, hdsf2, _, hlift⟩ := walkUpdate_reset s hph hge
    refine ⟨⟨by omega, by omega⟩, fun _ => ⟨hst, hcnt⟩, fun hcon => absurd hcon (by omega),
      fun _ => hlift⟩
  · obtain ⟨hcnt, hst, _, hlen2, hdsf2, _⟩ := walkUpdate_inc s hph hlt
    refine ⟨⟨by omega, by omega⟩, fun hcon => absurd hcon (by omega), fun _ => hst, ?_⟩
    intro hle
    apply walkUpdate_lift_zero s hph hlt hc0
    rw [hcnt, hdsf2, hlen2] at hle
    exact hle

/-- Witness for C3 at the concrete walk.py state `walkScenario`. -/
theorem c3_witness :
    (walkScenario.gait_phase = 20 ∨ walkScenario.gait_phase = 30) ∧
    (1 : ℤ) ≤ walkScenario.step_cycle_length ∧
    (0 ≤ (walkUpdate walkScenario).step_cycle_counter ∧
      (walkUpdate walkScenario).step_cycle_counter ≤
        (walkUpdate walkScenario).step_cycle_length) :=
  ⟨Or.inl rfl, by norm_num [walkScenario, walkInit],
    (c3_step_cycle_invariant walkScenario (Or.inl rfl)
      (by norm_num [walkScenario, walkInit])
      (by norm_num [walkScenario, walkInit])
      (by norm_num [walkScenario, walkInit])).1⟩

/-! ### C7 -/

lemma walk_chain (s0 : WalkState)
    (hph : s0.gait_phase = 20 ∨ s0.gait_phase = 30) :
    ∀ k : ℕ, s0.step_cycle_counter + k ≤ s0.step_cycle_length →
      (walkUpdate^[k] s0).step_cycle_counter = s0.step_cycle_counter + k ∧
      (walkUpdate^[k] s0).stance_foot_index = s0.stance_foot_index ∧
      ((walkUpdate^[k] s0).gait_phase = 20 ∨ (walkUpdate^[k] s0).gait_phase = 30) ∧
      (walkUpdate^[k] s0).step_cycle_length = s0.step_cycle_length ∧
      (walkUpdate^[k] s0).accumulated_forward_offset =
        s0.accumulated_forward_offset := by
  intro k
  induction k with
  | zero => intro _; simp [hph]
  | succ n ih =>
    intro hbound
    obtain ⟨hcnt, hst, hph2, hlen2, hacc⟩ := ih (by push_cast at hbound ⊢; omega)
    have hlt : (walkUpdate^[n] s0).step_cycle_counter <
        (walkUpdate^[n] s0).step_cycle_length := by
      rw [hcnt, hlen2]; push_cast at hbound ⊢; omega
    obtain ⟨icnt, ist, iph, ilen, _, iacc⟩ := walkUpdate_inc _ hph2 hlt
    rw [Function.iterate_succ_apply']
    refine ⟨?_, by rw [ist, hst], iph, by rw [ilen, hlen2], by rw [iacc, hacc]⟩
    rw [icnt, hcnt]; push_cast; ring

/-- Claim C7: starting a walking cycle (phase 20, counter 1) with
`step_cycle_length = 20`, `double_support_fraction = 0.4`,
`step_length = 10` (walk.py's defaults), the stance foot index is
unchanged through the first 19 ticks, toggles on the 20th tick — i.e.
exactly once in the 20 ticks — and the accumulated forward offset is 0
after the 20 ticks. -/
theorem c7_single_step_toggle :
    (∀ k : ℕ, k ≤ 19 →
      (walkUpdate^[k] walkScenario).stance_foot_index =
        walkScenario.stance_foot_index) ∧
    (walkUpdate^[20] walkScenario).stance_foot_index =
      !walkScenario.stance_foot_index ∧
    (walkUpdate^[20] walkScenario).accumulated_forward_offset = 0 := by
  have hph : walkScenario.gait_phase = 20 ∨ walkScenario.gait_phase = 30 :=
    Or.inl rfl
  have hc1 : walkScenario.step_cycle_counter = 1 := rfl
  have hl20 : walkScenario.step_cycle_length = 20 := rfl
  have hchain := walk_chain walkScenario hph
  constructor
  · intro k hk
    exact (hchain k (by rw [hc1, hl20]; omega)).2.1
  · obtain ⟨hcnt, hst, hph2, hlen2, _⟩ := hchain 19 (by norm_num [hc1, hl20])
    have hge : (walkUpdate^[19] walkScenario).step_cycle_length ≤
        (walkUpdate^[19] walkScenario).step_cycle_counter := by
      rw [hcnt, hlen2, hc1, hl20]
      norm_num
    obtain ⟨_, rst, _, _, _, racc, _⟩ := walkUpdate_reset _ hph2 hge
    rw [show (20 : ℕ) = 19 + 1 from rfl, Function.iterate_succ_apply']
    exact ⟨by rw [rst, hst], racc⟩

/-- Witness for C7's universally quantified part at `k = 3`. -/
theorem c7_witness :
    (3 : ℕ) ≤ 19 ∧
    (walkUpdate^[3] walkScenario).stance_foot_index =
      walkScenario.stance_foot_index :=
  ⟨by norm_num, c7_single_step_toggle.1 3 (by norm_num)⟩

/-! ### C8 (counterexample part; the amended theorem follows the
zmp_walking embedding below) -/

/-- Claim C8, counterexample: the very first tick of `update_gait` from the
freshly constructed controller (RampDown, `initial_leg_height = 175`,
`nominal_leg_height = 170`) decrements `initial_leg_height` to 174, so the
LegGeometry fields are not all immutable. -/
theorem c8_initial_height_mutates :
    (walkUpdate walkInit).initial_leg_height ≠ walkInit.initial_leg_height := by
  have h0 : walkInit.gait_phase = 0 := rfl
  have hcond : walkInit.nominal_leg_height + 0.1 < walkInit.initial_leg_height := by
    show (170 : ℝ) + 0.1 < 175
    norm_num
  have hval : (walkUpdate walkInit).initial_leg_height =
      walkInit.initial_leg_height - 1 := by
    unfold walkUpdate
    rw [if_pos h0]
    simp only [wcf_init]
    rw [if_pos hcond]
  rw [hval]
  show walkInit.initial_leg_height - 1 ≠ walkInit.initial_leg_height
  norm_num

/-! ## Gait state machine (`ZMPWalkingPlanner`, zmp_walking.py)

All instance attributes of `ZMPWalkingPlanner.__init__`. The update
additionally returns the list of `control_foot_position` calls made on the
tick, as `(x, y, h, side)` tuples, so that the commanded foot positions
can be observed. -/

structure ZmpState where
  enable_lateral_motion : Bool
  roll_offset : ℝ
  hip_pitch_offset : ℝ
  LEG_LENGTH : ℝ
  hip_forward_offset : ℝ
  nominal_leg_height : ℝ
  initial_leg_height : ℝ
  gait_phase : ℤ
  walking_enabled : Bool
  stance_foot_index : Bool
  step_cycle_length : ℤ
  step_cycle_counter : ℤ
  lateral_foot_shift : ℝ
  max_foot_lift : ℝ
  double_support_fraction : ℝ
  current_foot_lift : ℝ
  base_stance_width : ℝ
  fo0 : ℝ
  fo1 : ℝ
  accumulated_forward_offset : ℝ
  previous_stance_foot_offset : ℝ
  previous_swing_foot_offset : ℝ
  step_length : ℝ
  lateral_offset : ℝ
  dyi : ℝ
  pitch : ℝ
  roll : ℝ
  K0 : ℝ × ℝ
  K1 : ℝ × ℝ
  H : ℝ × ℝ
  A0 : ℝ × ℝ

def zfoGet (s : ZmpState) (side : Bool) : ℝ := if side then s.fo1 else s.fo0

def zfoSet (s : ZmpState) (side : Bool) (v : ℝ) : ZmpState :=
  if side then { s with fo1 := v } else { s with fo0 := v }

/-- `ZMPWalkingPlanner.control_foot_position` (knee `2.0 * gamma + 0.3`,
ankle offset `0.3`) writing into the joint arrays at `side`. -/
def zmpControlFoot (s : ZmpState) (x y h : ℝ) (side : Bool) : ZmpState :=
  let r := ikSolve s.LEG_LENGTH 2 0.3 0.3 s.roll_offset x y h
  { s with K0 := setPair s.K0 side r.1, K1 := setPair s.K1 side r.2.1,
           H := setPair s.H side r.2.2.1, A0 := setPair s.A0 side r.2.2.2 }

/-- `virtual_balance_adjustment`: `lateral_offset += 0.1 * lateral_offset`. -/
def zmpVirtualBalance (s : ZmpState) : ZmpState :=
  { s with lateral_offset := s.lateral_offset + 0.1 * s.lateral_offset }

/-- zmp `update`, lateral block: signed half-sine sway then the virtual
balance adjustment when lateral motion is enabled, else zero. -/
def zmpLateral (s : ZmpState) : ZmpState :=
  if s.enable_lateral_motion then
    zmpVirtualBalance
      { s with lateral_offset :=
          if s.stance_foot_index = false then
            s.lateral_foot_shift *
              Real.sin (Real.pi * (s.step_cycle_counter : ℝ) / (s.step_cycle_length : ℝ))
          else
            -(s.lateral_foot_shift *
              Real.sin (Real.pi * (s.step_cycle_counter : ℝ) / (s.step_cycle_length : ℝ))) }
  else { s with lateral_offset := 0 }

/-- zmp `update`, stance-foot forward-offset block. -/
def zmpForward (s : ZmpState) : ZmpState :=
  if (s.step_cycle_counter : ℝ) < (s.step_cycle_length : ℝ) / 2 then
    zfoSet s s.stance_foot_index
      (s.previous_stance_foot_offset *
        (1 - 2 * ((s.step_cycle_counter : ℝ) / (s.step_cycle_length : ℝ))))
  else
    zfoSet s s.stance_foot_index
      (-(s.step_length - s.accumulated_forward_offset) *
        (2 * (s.step_cycle_counter : ℝ) / (s.step_cycle_length : ℝ) - 1))

/-- zmp `update`, `gait_phase == 20` block. -/
def zmpSwing20 (s : ZmpState) : ZmpState :=
  if s.gait_phase = 20 then
    if (s.step_cycle_counter : ℝ) <
        s.double_support_fraction * (s.step_cycle_length : ℝ) then
      zfoSet s (!s.stance_foot_index)
        (s.previous_swing_foot_offset -
          (s.previous_stance_foot_offset - zfoGet s s.stance_foot_index))
    else
      { s with previous_swing_foot_offset := zfoGet s (!s.stance_foot_index),
               gait_phase := 30 }
  else s

/-- zmp `update`, `gait_phase == 30` block with the guarded denominator. -/
def zmpSwing30 (s : ZmpState) : ZmpState :=
  if s.gait_phase = 30 then
    zfoSet s (!s.stance_foot_index)
      (s.previous_swing_foot_offset +
        ((-Real.cos (Real.pi *
            ((s.step_cycle_counter : ℝ) -
              (truncR (s.double_support_fraction * (s.step_cycle_length : ℝ)) : ℝ)) /
            swingDenom s.double_support_fraction s.step_cycle_length) + 1) / 2) *
          (s.step_length - s.accumulated_forward_offset -
            s.previous_swing_foot_offset))
  else s

/-- zmp `update`, foot-lift block. -/
def zmpLift (s : ZmpState) : ZmpState :=
  if truncR (s.double_support_fraction * (s.step_cycle_length : ℝ)) <
      s.step_cycle_counter then
    { s with current_foot_lift := s.max_foot_lift *
        Real.sin (Real.pi *
          ((s.step_cycle_counter : ℝ) -
            (truncR (s.double_support_fraction * (s.step_cycle_length : ℝ)) : ℝ)) /
          ((s.step_cycle_length : ℝ) -
            (truncR (s.double_support_fraction * (s.step_cycle_length : ℝ)) : ℝ))) }
  else { s with current_foot_lift := 0 }

/-- zmp `update`, foot-placement block. -/
def zmpPlaceFeet (s : ZmpState) : ZmpState :=
  if s.stance_foot_index = false then
    let t := zmpControlFoot s (s.fo0 - s.hip_forward_offset)
      (-s.lateral_offset - s.base_stance_width) s.nominal_leg_height false
    zmpControlFoot t (t.fo1 - t.hip_forward_offset)
      (t.lateral_offset + t.base_stance_width)
      (t.nominal_leg_height - t.current_foot_lift) true
  else
    let t := zmpControlFoot s (s.fo0 - s.hip_forward_offset)
      (-s.lateral_offset - s.base_stance_width)
      (s.nominal_leg_height - s.current_foot_lift) false
    zmpControlFoot t (t.fo1 - t.hip_forward_offset)
      (t.lateral_offset + t.base_stance_width) t.nominal_leg_height true

/-- The `(x, y, h, side)` arguments of the two placement calls. -/
def zmpPlaceCmds (s : ZmpState) : List (ℝ × ℝ × ℝ × ℕ) :=
  if s.stance_foot_index = false then
    [(s.fo0 - s.hip_forward_offset, -s.lateral_offset - s.base_stance_width,
      s.nominal_leg_height, 0),
     (s.fo1 - s.hip_forward_offset, s.lateral_offset + s.base_stance_width,
      s.nominal_leg_height - s.current_foot_lift, 1)]
  else
    [(s.fo0 - s.hip_forward_offset, -s.lateral_offset - s.base_stance_width,
      s.nominal_leg_height - s.current_foot_lift, 0),
     (s.fo1 - s.hip_forward_offset, s.lateral_offset + s.base_stance_width,
      s.nominal_leg_height, 1)]

/-- zmp `update`, cycle-end block. -/
def zmpCycleEnd (s : ZmpState) : ZmpState :=
  if s.step_cycle_length ≤ s.step_cycle_counter then
    { s with stance_foot_index := !s.stance_foot_index,
             step_cycle_counter := 1,
             accumulated_forward_offset := 0,
             previous_stance_foot_offset := zfoGet s (!s.stance_foot_index),
             previous_swing_foot_offset := zfoGet s (!(!s.stance_foot_index)),
             current_foot_lift := 0,
             gait_phase := 20 }
  else { s with step_cycle_counter := s.step_cycle_counter + 1 }

/-- `ZMPWalkingPlanner.update` (its `feedback_state` argument is unused by
the source except as a parameter). Returns the new state and the list of
`control_foot_position` calls of the tick. -/
def zmpUpdate (s : ZmpState) : ZmpState × List (ℝ × ℝ × ℝ × ℕ) :=
  if s.gait_phase = 0 then
    let s1 := if s.nominal_leg_height + 0.1 < s.initial_leg_height then
        { s with initial_leg_height := s.initial_leg_height - 1 }
      else { s with gait_phase := 10 }
    (zmpControlFoot
      (zmpControlFoot s1 (-s1.hip_forward_offset) 0 s1.initial_leg_height false)
      (-s1.hip_forward_offset) 0 s1.initial_leg_height true,
     [(-s1.hip_forward_offset, 0, s1.initial_leg_height, 0),
      (-s1.hip_forward_offset, 0, s1.initial_leg_height, 1)])
  else if s.gait_phase = 10 then
    let s1 := zmpControlFoot
      (zmpControlFoot s (-s.hip_forward_offset) 0 s.nominal_leg_height false)
      (-s.hip_forward_offset) 0 s.nominal_leg_height true
    (if s1.walking_enabled then { s1 with step_length := 20, gait_phase := 20 } else s1,
     [(-s.hip_forward_offset, 0, s.nominal_leg_height, 0),
      (-s.hip_forward_offset, 0, s.nominal_leg_height, 1)])
  else if s.gait_phase = 20 ∨ s.gait_phase = 30 then
    let t := zmpLift (zmpSwing30 (zmpSwing20 (zmpForward (zmpLateral s))))
    (zmpCycleEnd (zmpPlaceFeet t), zmpPlaceCmds t)
  else (s, [])

def zmpStep (s : ZmpState) : ZmpState := (zmpUpdate s).1

def zmpCmds (s : ZmpState) : List (ℝ × ℝ × ℝ × ℕ) := (zmpUpdate s).2

/-- `ZMPWalkingPlanner()` with the default `enable_lateral_motion=True`. -/
def zmpInit : ZmpState :=
  { enable_lateral_motion := true, roll_offset := radiansOf 0,
    hip_pitch_offset := radiansOf 20, LEG_LENGTH := 180,
    hip_forward_offset := 2.04, nominal_leg_height := 170,
    initial_leg_height := 180, gait_phase := 0, walking_enabled := true,
    stance_foot_index := false, step_cycle_length := 4,
    step_cycle_counter := 0, lateral_foot_shift := 12, max_foot_lift := 10,
    double_support_fraction := 0.2, current_foot_lift := 0,
    base_stance_width := 2, fo0 := 0, fo1 := 0,
    accumulated_forward_offset := 0, previous_stance_foot_offset := 0,
    previous_swing_foot_offset := 0, step_length := 15, lateral_offset := 0,
    dyi := 0, pitch := 0, roll := 0,
    K0 := (0, 0), K1 := (0, 0), H := (0, 0), A0 := (0, 0) }

/-! ### zmp projection lemmas -/

@[simp] lemma zcf_ph (s : ZmpState) (x y h : ℝ) (b : Bool) :
    (zmpControlFoot s x y h b).gait_phase = s.gait_phase := rfl
@[simp] lemma zcf_init (s : ZmpState) (x y h : ℝ) (b : Bool) :
    (zmpControlFoot s x y h b).initial_leg_height = s.initial_leg_height := rfl
@[simp] lemma zcf_nom (s : ZmpState) (x y h : ℝ) (b : Bool) :
    (zmpControlFoot s x y h b).nominal_leg_height = s.nominal_leg_height := rfl
@[simp] lemma zcf_hfo (s : ZmpState) (x y h : ℝ) (b : Bool) :
    (zmpControlFoot s x y h b).hip_forward_offset = s.hip_forward_offset := rfl
@[simp] lemma zcf_leg (s : ZmpState) (x y h : ℝ) (b : Bool) :
    (zmpControlFoot s x y h b).LEG_LENGTH = s.LEG_LENGTH := rfl

@[simp] lemma zfoSet_leg (s : ZmpState) (b : Bool) (v : ℝ) :
    (zfoSet s b v).LEG_LENGTH = s.LEG_LENGTH := by
  unfold zfoSet; split <;> rfl
@[simp] lemma zfoSet_hfo (s : ZmpState) (b : Bool) (v : ℝ) :
    (zfoSet s b v).hip_forward_offset = s.hip_forward_offset := by
  unfold zfoSet; split <;> rfl
@[simp] lemma zfoSet_nom (s : ZmpState) (b : Bool) (v : ℝ) :
    (zfoSet s b v).nominal_leg_height = s.nominal_leg_height := by
  unfold zfoSet; split <;> rfl

@[simp] lemma zlat_leg (s : ZmpState) :
    (zmpLateral s).LEG_LENGTH = s.LEG_LENGTH := by
  unfold zmpLateral zmpVirtualBalance; split <;> rfl
@[simp] lemma zlat_hfo (s : ZmpState) :
    (zmpLateral s).hip_forward_offset = s.hip_forward_offset := by
  unfold zmpLateral zmpVirtualBalance; split <;> rfl
@[simp] lemma zlat_nom (s : ZmpState) :
    (zmpLateral s).nominal_leg_height = s.nominal_leg_height := by
  unfold zmpLateral zmpVirtualBalance; split <;> rfl

@[simp] lemma zfwd_leg (s : ZmpState) :
    (zmpForward s).LEG_LENGTH = s.LEG_LENGTH := by
  unfold zmpForward; split <;> simp
@[simp] lemma zfwd_hfo (s : ZmpState) :
    (zmpForward s).hip_forward_offset = s.hip_forward_offset := by
  unfold zmpForward; split <;> simp
@[simp] lemma zfwd_nom (s : ZmpState) :
    (zmpForward s).nominal_leg_height = s.nominal_leg_height := by
  unfold zmpForward; split <;> simp

@[simp] lemma zs20_leg (s : ZmpState) :
    (zmpSwing20 s).LEG_LENGTH = s.LEG_LENGTH := by
  unfold zmpSwing20; split_ifs <;> simp
@[simp] lemma zs20_hfo (s : ZmpState) :
    (zmpSwing20 s).hip_forward_offset = s.hip_forward_offset := by
  unfold zmpSwing20; split_ifs <;> simp
@[simp] lemma zs20_nom (s : ZmpState) :
    (zmpSwing20 s).nominal_leg_height = s.nominal_leg_height := by
  unfold zmpSwing20; split_ifs <;> simp

@[simp] lemma zs30_leg (s : ZmpState) :
    (zmpSwing30 s).LEG_LENGTH = s.LEG_LENGTH := by
  unfold zmpSwing30; split_ifs <;> simp
@[simp] lemma zs30_hfo (s : ZmpState) :
    (zmpSwing30 s).hip_forward_offset = s.hip_forward_offset := by
  unfold zmpSwing30; split_ifs <;> simp
@[simp] lemma zs30_nom (s : ZmpState) :
    (zmpSwing30 s).nominal_leg_height = s.nominal_leg_height := by
  unfold zmpSwing30; split_ifs <;> simp

@[simp] lemma zlift_leg (s : ZmpState) :
    (zmpLift s).LEG_LENGTH = s.LEG_LENGTH := by
  unfold zmpLift; split <;> rfl
@[simp] lemma zlift_hfo (s : ZmpState) :
    (zmpLift s).hip_forward_offset = s.hip_forward_offset := by
  unfold zmpLift; split <;> rfl
@[simp] lemma zlift_nom (s : ZmpState) :
    (zmpLift s).nominal_leg_height = s.nominal_leg_height := by
  unfold zmpLift; split <;> rfl

@[simp] lemma zpf_leg (s : ZmpState) :
    (zmpPlaceFeet s).LEG_LENGTH = s.LEG_LENGTH := by
  unfold zmpPlaceFeet; split <;> rfl
@[simp] lemma zpf_hfo (s : ZmpState) :
    (zmpPlaceFeet s).hip_forward_offset = s.hip_forward_offset := by
  unfold zmpPlaceFeet; split <;> rfl
@[simp] lemma zpf_nom (s : ZmpState) :
    (zmpPlaceFeet s).nominal_leg_height = s.nominal_leg_height := by
  unfold zmpPlaceFeet; split <;> rfl

@[simp] lemma zce_leg (s : ZmpState) :
    (zmpCycleEnd s).LEG_LENGTH = s.LEG_LENGTH := by
  unfold zmpCycleEnd; split <;> rfl
@[simp] lemma zce_hfo (s : ZmpState) :
    (zmpCycleEnd s).hip_forward_offset = s.hip_forward_offset := by
  unfold zmpCycleEnd; split <;> rfl
@[simp] lemma zce_nom (s : ZmpState) :
    (zmpCycleEnd s).nominal_leg_height = s.nominal_leg_height := by
  unfold zmpCycleEnd; split <;> rfl

@[simp] lemma wce_leg (s : WalkState) :
    (walkCycleEnd s).LEG_LENGTH = s.LEG_LENGTH := by
  unfold walkCycleEnd; split <;> rfl
@[simp] lemma wce_hfo (s : WalkState) :
    (walkCycleEnd s).hip_forward_offset = s.hip_forward_offset := by
  unfold walkCycleEnd; split <;> rfl
@[simp] lemma wce_nom (s : WalkState) :
    (walkCycleEnd s).nominal_leg_height = s.nominal_leg_height := by
  unfold walkCycleEnd; split <;> rfl

/-! ### RampDown behaviour (zmp phase 0) -/

/-- One ramp tick while still above the threshold: stay in phase 0 and
decrement the leg height by 1 mm. -/
lemma zmpStep_ramp (s : ZmpState) (h0 : s.gait_phase = 0)
    (hgt : s.nominal_leg_height + 0.1 < s.initial_leg_height) :
    (zmpStep s).gait_phase = 0 ∧
    (zmpStep s).initial_leg_height = s.initial_leg_height - 1 ∧
    (zmpStep s).nominal_leg_height = s.nominal_leg_height ∧
    (zmpStep s).hip_forward_offset = s.hip_forward_offset := by
  unfold zmpStep zmpUpdate
  simp [h0, hgt]

/-- The ramp tick at (or within 0.1 mm of) nominal height: transition to
phase 10 (Ready) without changing the height. -/
lemma zmpStep_to_ready (s : ZmpState) (h0 : s.gait_phase = 0)
    (hle : ¬ (s.nominal_leg_height + 0.1 < s.initial_leg_height)) :
    (zmpStep s).gait_phase = 10 ∧
    (zmpStep s).initial_leg_height = s.initial_leg_height := by
  unfold zmpStep zmpUpdate
  simp [h0, hle]

/-- Foot commands of a decrementing ramp tick: both feet at
`h = initial_leg_height - 1`. -/
lemma zmpCmds_ramp (s : ZmpState) (h0 : s.gait_phase = 0)
    (hgt : s.nominal_leg_height + 0.1 < s.initial_leg_height) :
    zmpCmds s =
      [(-s.hip_forward_offset, 0, s.initial_leg_height - 1, 0),
       (-s.hip_forward_offset, 0, s.initial_leg_height - 1, 1)] := by
  unfold zmpCmds zmpUpdate
  simp [h0, hgt]

/-- Foot commands of the transition tick: both feet at the unchanged
`h = initial_leg_height`. -/
lemma zmpCmds_ready (s : ZmpState) (h0 : s.gait_phase = 0)
    (hle : ¬ (s.nominal_leg_height + 0.1 < s.initial_leg_height)) :
    zmpCmds s =
      [(-s.hip_forward_offset, 0, s.initial_leg_height, 0),
       (-s.hip_forward_offset, 0, s.initial_leg_height, 1)] := by
  unfold zmpCmds zmpUpdate
  simp [h0, hle]

lemma zmp_ramp_chain : ∀ k : ℕ, k ≤ 10 →
    (zmpStep^[k] zmpInit).gait_phase = 0 ∧
    (zmpStep^[k] zmpInit).initial_leg_height = 180 - (k : ℝ) ∧
    (zmpStep^[k] zmpInit).nominal_leg_height = 170 ∧
    (zmpStep^[k] zmpInit).hip_forward_offset = 2.04 := by
  intro k
  induction k with
  | zero =>
    intro _
    refine ⟨rfl, ?_, rfl, rfl⟩
    show zmpInit.initial_leg_height = 180 - ((0 : ℕ) : ℝ)
    norm_num [zmpInit]
  | succ n ih =>
    intro hn
    obtain ⟨hph, hinit, hnom, hhfo⟩ := ih (by omega)
    have hn9 : (n : ℝ) ≤ 9 := by exact_mod_cast (by omega : n ≤ 9)
    have hgt : (zmpStep^[n] zmpInit).nominal_leg_height + 0.1 <
        (zmpStep^[n] zmpInit).initial_leg_height := by
      rw [hnom, hinit]; linarith
    obtain ⟨r1, r2, r3, r4⟩ := zmpStep_ramp _ hph hgt
    rw [Function.iterate_succ_apply']
    refine ⟨r1, ?_, by rw [r3, hnom], by rw [r4, hhfo]⟩
    rw [r2, hinit]; push_cast; ring

/-! ### C6 -/

/-- Claim C6, counterexample: with `initial_leg_height = 180`,
`nominal_leg_height = 170` and the 1 mm/tick ramp, after exactly 10 ticks
the planner is still in phase 0 (RampDown), not yet Ready: the height
reaches 170 on the 10th tick but the `<= nominal + 0.1` test only fires on
the following tick. -/
theorem c6_not_ready_after_10 : (zmpStep^[10] zmpInit).gait_phase ≠ 10 := by
  have h := (zmp_ramp_chain 10 le_rfl).1
  rw [h]
  norm_num

/-- Claim C6, amended: after exactly 10 ticks both feet are commanded at
`h = 170` (the 10th tick's two foot commands carry `h = 170`) and the
stored leg height is 170, but the phase is still RampDown (0); the
transition to Ready (10) happens on the 11th tick, whose foot commands
again carry `h = 170`. -/
theorem c6_rampdown_timing :
    (zmpStep^[10] zmpInit).initial_leg_height = 170 ∧
    (zmpStep^[10] zmpInit).gait_phase = 0 ∧
    zmpCmds (zmpStep^[9] zmpInit) =
      [(-2.04, 0, 170, 0), (-2.04, 0, 170, 1)] ∧
    (zmpStep^[11] zmpInit).gait_phase = 10 ∧
    zmpCmds (zmpStep^[10] zmpInit) =
      [(-2.04, 0, 170, 0), (-2.04, 0, 170, 1)] := by
  obtain ⟨hph9, hinit9, hnom9, hhfo9⟩ := zmp_ramp_chain 9 (by omega)
  obtain ⟨hph10, hinit10, hnom10, hhfo10⟩ := zmp_ramp_chain 10 le_rfl
  have hgt9 : (zmpStep^[9] zmpInit).nominal_leg_height + 0.1 <
      (zmpStep^[9] zmpInit).initial_leg_height := by
    rw [hnom9, hinit9]; norm_num
  have hle10 : ¬ ((zmpStep^[10] zmpInit).nominal_leg_height + 0.1 <
      (zmpStep^[10] zmpInit).initial_leg_height) := by
    rw [hnom10, hinit10]; norm_num
  refine ⟨by rw [hinit10]; norm_num, hph10, ?_, ?_, ?_⟩
  · rw [zmpCmds_ramp _ hph9 hgt9, hhfo9, hinit9]
    norm_num
  · rw [show (11 : ℕ) = 10 + 1 from rfl, Function.iterate_succ_apply']
    exact (zmpStep_to_ready _ hph10 hle10).1
  · rw [zmpCmds_ready _ hph10 hle10, hhfo10, hinit10]
    norm_num

/-! ### C8 (amended) -/

/-- Claim C8, amended: the leg segment length, hip-forward offset and
nominal leg height are unchanged by every tick in every phase, in both the
walk.py and the zmp_walking.py controllers; `initial_leg_height`, by
contrast, is decremented by the RampDown phase (see the counterexample)
and is only immutable once RampDown has finished. -/
theorem c8_geometry_immutable (s : WalkState) (z : ZmpState) :
    (walkUpdate s).LEG_LENGTH = s.LEG_LENGTH ∧
    (walkUpdate s).hip_forward_offset = s.hip_forward_offset ∧
    (walkUpdate s).nominal_leg_height = s.nominal_leg_height ∧
    (zmpStep z).LEG_LENGTH = z.LEG_LENGTH ∧
    (zmpStep z).hip_forward_offset = z.hip_forward_offset ∧
    (zmpStep z).nominal_leg_height = z.nominal_leg_height := by
  refine ⟨?_, ?_, ?_, ?_, ?_, ?_⟩
  · unfold walkUpdate; split_ifs <;> simp [walkPre, apply_ite]
  · unfold walkUpdate; split_ifs <;> simp [walkPre, apply_ite]
  · unfold walkUpdate; split_ifs <;> simp [walkPre, apply_ite]
  · unfold zmpStep zmpUpdate; split_ifs <;> simp [apply_ite]
  · unfold zmpStep zmpUpdate; split_ifs <;> simp [apply_ite]
  · unfold zmpStep zmpUpdate; split_ifs <;> simp [apply_ite]

/-! ## Command conversion (`angles_to_pykos_commands`, walk.py;
`get_command_positions` / `add_offsets`, zmp_walking.py) -/

/-- The static `joint_to_actuator_id` table (identical in walk.py and
zmp_walking.py). -/
def jointToActuatorId : List (String × ℕ) :=
  [("left_shoulder_yaw", 11), ("left_shoulder_pitch", 12),
   ("left_elbow_yaw", 13), ("left_gripper", 14),
   ("right_shoulder_yaw", 21), ("right_shoulder_pitch", 22),
   ("right_elbow_yaw", 23), ("right_gripper", 24),
   ("left_hip_yaw", 31), ("left_hip_roll", 32), ("left_hip_pitch", 33),
   ("left_knee", 34), ("left_ankle", 35),
   ("right_hip_yaw", 41), ("right_hip_roll", 42), ("right_hip_pitch", 43),
   ("right_knee", 44), ("right_ankle", 45)]

/-- The single static sign flip of `angles_to_pykos_commands`:
`if actuator_id in [32]: angle_degrees = -angle_degrees`. -/
def signAdj (id : ℕ) (d : ℝ) : ℝ := if id = 32 then -d else d

/-- walk.py `angles_to_pykos_commands`: keep exactly the entries whose
joint name is in the table, convert radians to degrees, apply the sign
flip, and emit `(actuator_id, position)` pairs in input order. -/
def anglesToPykosCommands (angles : List (String × ℝ)) : List (ℕ × ℝ) :=
  angles.filterMap (fun p =>
    (jointToActuatorId.lookup p.1).map (fun id => (id, signAdj id (degreesOf p.2))))

/-- walk.py `BipedController.get_joint_angles` (insertion order of the
Python dict). -/
def walkGetJointAngles (s : WalkState) : List (String × ℝ) :=
  [("left_hip_yaw", 0), ("right_hip_yaw", 0),
   ("left_hip_roll", -s.K1.1),
   ("left_hip_pitch", -s.K0.1 - s.hip_pitch_offset),
   ("left_knee", s.H.1), ("left_ankle", s.A0.1),
   ("right_hip_roll", s.K1.2),
   ("right_hip_pitch", s.K0.2 + s.hip_pitch_offset),
   ("right_knee", -s.H.2), ("right_ankle", -s.A0.2),
   ("left_shoulder_yaw", 0), ("left_shoulder_pitch", 0),
   ("left_elbow", 0), ("left_gripper", 0),
   ("right_shoulder_yaw", 0), ("right_shoulder_pitch", 0),
   ("right_elbow", 0), ("right_gripper", 0)]

/-- zmp_walking.py `ZMPWalkingPlanner.add_offsets`. -/
def zmpAddOffsets (s : ZmpState) : List (String × ℝ) :=
  [("left_hip_yaw", 0), ("right_hip_yaw", 0),
   ("left_hip_roll", -s.K1.1),
   ("left_hip_pitch", -s.K0.1 + -s.hip_pitch_offset),
   ("left_knee", s.H.1), ("left_ankle", s.A0.1),
   ("right_hip_roll", s.K1.2),
   ("right_hip_pitch", s.K0.2 + s.hip_pitch_offset),
   ("right_knee", -s.H.2), ("right_ankle", -s.A0.2),
   ("left_shoulder_yaw", 0), ("left_shoulder_pitch", 3 * s.K1.1),
   ("left_elbow", 0), ("left_gripper", 0),
   ("right_shoulder_yaw", 0), ("right_shoulder_pitch", 3 * s.K1.2),
   ("right_elbow", s.H.2), ("right_gripper", 0)]

/-- zmp_walking.py `get_command_positions`: name-keyed variant; entries
whose joint name is not in the table are skipped, the rest are converted
to degrees (no sign flip). -/
def zmpGetCommandPositions (s : ZmpState) : List (String × ℝ) :=
  (zmpAddOffsets s).filterMap (fun p =>
    if (jointToActuatorId.lookup p.1).isSome then some (p.1, degreesOf p.2)
    else none)

/-! ### C10 -/

/-- Claim C10: the command conversion emits an output entry exactly for
the input joint names present in `joint_to_actuator_id` (each converted
radians-to-degrees, with the single sign flip for actuator 32 =
`left_hip_roll` in the actuator-command variant); names absent from the
table are silently dropped with no error — in particular the
`left_elbow` / `right_elbow` keys present in both controllers' angle
dictionaries are never commanded, so both pipelines emit 16 of the 18
entries. -/
theorem c10_command_conversion :
    (∀ (angles : List (String × ℝ)) (name : String) (a : ℝ) (id : ℕ),
      (name, a) ∈ angles → jointToActuatorId.lookup name = some id →
      (id, signAdj id (degreesOf a)) ∈ anglesToPykosCommands angles) ∧
    (∀ (angles : List (String × ℝ)) (c : ℕ × ℝ),
      c ∈ anglesToPykosCommands angles →
      ∃ name a, (name, a) ∈ angles ∧
        jointToActuatorId.lookup name = some c.1 ∧
        c.2 = signAdj c.1 (degreesOf a)) ∧
    jointToActuatorId.lookup "left_elbow" = none ∧
    jointToActuatorId.lookup "right_elbow" = none ∧
    jointToActuatorId.lookup "left_hip_roll" = some 32 ∧
    (∀ d : ℝ, signAdj 32 d = -d) ∧
    (∀ (id : ℕ) (d : ℝ), id ≠ 32 → signAdj id d = d) ∧
    (∀ s : WalkState, ("left_elbow", (0 : ℝ)) ∈ walkGetJointAngles s ∧
      ("right_elbow", (0 : ℝ)) ∈ walkGetJointAngles s ∧
      (anglesToPykosCommands (walkGetJointAngles s)).length = 16) ∧
    (∀ z : ZmpState, ("left_elbow", (0 : ℝ)) ∈ zmpAddOffsets z ∧
      "left_elbow" ∉ (zmpGetCommandPositions z).map Prod.fst ∧
      (zmpGetCommandPositions z).length = 16) := by
  refine ⟨?_, ?_, by decide, by decide, by decide, ?_, ?_, ?_, ?_⟩
  · intro angles name a id hmem hlk
    exact List.mem_filterMap.mpr ⟨(name, a), hmem, by simp [hlk]⟩
  · intro angles c hc
    obtain ⟨p, hp, hf⟩ := List.mem_filterMap.mp hc
    cases hlk : jointToActuatorId.lookup p.1 with
    | none => rw [hlk] at hf; simp at hf
    | some id =>
      rw [hlk] at hf
      have h2 : (id, signAdj id (degreesOf p.2)) = c := Option.some.inj hf
      refine ⟨p.1, p.2, hp, ?_, ?_⟩
      · rw [hlk, ← h2]
      · rw [← h2]
  · intro d; unfold signAdj; rw [if_pos rfl]
  · intro id d hne; unfold signAdj; rw [if_neg hne]
  · intro s
    refine ⟨by simp [walkGetJointAngles], by simp [walkGetJointAngles], ?_⟩
    simp [anglesToPykosCommands, walkGetJointAngles, List.filterMap_cons,
      jointToActuatorId, List.lookup]
  · intro z
    refine ⟨by simp [zmpAddOffsets], ?_, ?_⟩
    · intro hmem
      obtain ⟨c, hc, hfst⟩ := List.mem_map.mp hmem
      obtain ⟨p, _, hf⟩ := List.mem_filterMap.mp hc
      by_cases hlk : (jointToActuatorId.lookup p.1).isSome
      · rw [if_pos hlk] at hf
        have h2 : (p.1, degreesOf p.2) = c := Option.some.inj hf
        have hp1 : p.1 = "left_elbow" := by rw [← hfst, ← h2]
        rw [hp1] at hlk
        have : jointToActuatorId.lookup "left_elbow" = none := by decide
        rw [this] at hlk
        simp at hlk
      · rw [if_neg hlk] at hf
        simp at hf
    · simp [zmpGetCommandPositions, zmpAddOffsets, List.filterMap_cons,
        jointToActuatorId, List.lookup]

/-- Witness for C10 at a concrete one-entry angle map: `left_knee`
(actuator 34) is emitted. -/
theorem c10_witness :
    ("left_knee", (1 : ℝ)) ∈ [(("left_knee" : String), (1 : ℝ))] ∧
    jointToActuatorId.lookup "left_knee" = some 34 ∧
    ((34 : ℕ), signAdj 34 (degreesOf 1)) ∈
      anglesToPykosCommands [(("left_knee" : String), (1 : ℝ))] :=
  ⟨List.mem_singleton.mpr rfl, by decide,
    c10_command_conversion.1 [("left_knee", 1)] "left_knee" 1 34
      (List.mem_singleton.mpr rfl) (by decide)⟩

end
